import Mathlib

/-!
# Shop page of the storefront: a shallow embedding

The development follows `Frontend/src/pages/Shop.jsx` and
`Frontend/src/pages/ProductDescription.jsx`.  The recommendation engine that
the Shop page imports is not among the sources; it is modelled from sections 3
and 4 of the specification.

Modelling conventions.

* JavaScript numbers (prices, scores, durations) are rationals; the catalog
  holds finite numbers, on which the comparisons and subtractions used by the
  page are exact.  `Date.now()` is a natural number of milliseconds.
* `String.prototype.toLowerCase` depends on the Unicode tables of the host; it
  is the parameter `Host.toLowerCase`, and `basicLatin` is its restriction to
  the letters `A` to `Z`, used to evaluate the page on sample data.
* React state is a record; a handler or an effect body is a function from the
  record (and the outside world) to the next record.
* The recommendation service and the cart store are not part of the page: they
  are parameters, and every call the page makes to them is appended to a log.
-/

namespace Shop

/-! ## Data model -/

/-- A catalog product, with the fields the page reads.  `score` is the optional
field attached by the recommendation service. -/
structure Product where
  id : Int
  name : String
  description : String
  tags : List String
  price : ℚ
  size : String
  category : String
  image : String
  score : Option ℚ
  deriving DecidableEq

/-- The four select values held by `filters` and by `pendingFilters`. -/
structure Filters where
  priceRange : String
  size : String
  category : String
  sortBy : String
  deriving DecidableEq

/-- The `useState` cells of the `Shop` component. -/
structure ShopState where
  products : List Product
  searchQuery : String
  filters : Filters
  pendingFilters : Filters
  pendingSearchQuery : String
  showChatbot : Bool
  highlightedProducts : List Int
  showFilters : Bool
  showOnlyHighlighted : Bool
  selectedProduct : Option Product
  quantity : Nat
  recommendedProducts : List Product
  trendingProducts : List Product
  viewStartTime : Option Nat
  deriving DecidableEq

/-- The object literal `{ priceRange: 'all', size: 'all', category: 'all', sortBy: 'featured' }`. -/
def defaultFilters : Filters :=
  { priceRange := "all", size := "all", category := "all", sortBy := "featured" }

/-- The state of the component on its first render, for a given catalog. -/
def initialState (initialProducts : List Product) : ShopState :=
  { products := initialProducts
    searchQuery := ""
    filters := defaultFilters
    pendingFilters := defaultFilters
    pendingSearchQuery := ""
    showChatbot := true
    highlightedProducts := []
    showFilters := false
    showOnlyHighlighted := false
    selectedProduct := none
    quantity := 1
    recommendedProducts := []
    trendingProducts := []
    viewStartTime := none }

/-! ## JavaScript built-ins used by the page -/

/-- The part of the JavaScript host that the page relies on and that is given
by the Unicode tables of the host: `String.prototype.toLowerCase`, which maps
every cased letter.  It is a parameter; all that is used of it is that the
empty string is mapped to itself. -/
structure Host where
  toLowerCase : String → String
  toLowerCase_empty : toLowerCase "" = ""

/-- The case mapping of the letters `A` to `Z`, with which every host agrees on
strings of Basic Latin characters. -/
def basicLatin : Host :=
  { toLowerCase := fun s => ⟨s.data.map Char.toLower⟩
    toLowerCase_empty := rfl }

/-- `haystack.includes(needle)`: the needle occurs as a contiguous run. -/
def includes (haystack needle : String) : Bool :=
  decide (needle.data <:+: haystack.data)

/-- `a.localeCompare(b)`: negative, zero or positive. -/
def localeCompare (a b : String) : ℚ :=
  if a < b then -1 else if a = b then 0 else 1

/-- `Math.round`: the nearest integer, a half rounding up. -/
def Math.round (x : ℚ) : ℤ := ⌊x + 1 / 2⌋

/-- `Math.min` on two numbers. -/
def Math.min (x y : ℚ) : ℚ := if x ≤ y then x else y

/-- `Array.prototype.sort(compare)`: a stable sort, `a` staying before `b`
whenever `compare(a, b) <= 0`. -/
def sort {α : Type} (compare : α → α → ℚ) (l : List α) : List α :=
  l.insertionSort (fun a b => compare a b ≤ 0)

/-! ## The match bar and label of a recommended product -/

/-- What `renderRecommendedSection` shows under a product when
`product.score` is truthy: the width of the bar, in percent, and the number
printed before `% match`. -/
structure MatchView where
  barWidth : ℚ
  label : ℤ
  deriving DecidableEq

/-- The block guarded by `product.score && (...)`. -/
def renderMatch (product : Product) : Option MatchView :=
  match product.score with
  | some score =>
    if score ≠ 0 then
      some { barWidth := Math.min 100 (score * 20), label := Math.round (score * 20) }
    else none
  | none => none

/-! ## The displayed product list -/

/-- The conjunct `matchesSearch` of the filter callback. -/
def matchesSearch (H : Host) (searchQuery : String) (product : Product) : Bool :=
  includes (H.toLowerCase product.name) (H.toLowerCase searchQuery) ||
  includes (H.toLowerCase product.description) (H.toLowerCase searchQuery) ||
  product.tags.any (fun tag => includes (H.toLowerCase tag) (H.toLowerCase searchQuery))

/-- The conjunct `matchesPrice` of the filter callback. -/
def matchesPrice (filters : Filters) (product : Product) : Bool :=
  filters.priceRange == "all" ||
  (filters.priceRange == "under50" && decide (product.price < 50)) ||
  (filters.priceRange == "50to100" && decide (product.price ≥ 50) && decide (product.price ≤ 100)) ||
  (filters.priceRange == "over100" && decide (product.price > 100))

/-- The conjunct `matchesSize` of the filter callback. -/
def matchesSize (filters : Filters) (product : Product) : Bool :=
  filters.size == "all" || product.size == filters.size

/-- The conjunct `matchesCategory` of the filter callback. -/
def matchesCategory (filters : Filters) (product : Product) : Bool :=
  filters.category == "all" || product.category == filters.category

/-- The conjunct `matchesHighlighted` of the filter callback. -/
def matchesHighlighted (showOnlyHighlighted : Bool) (highlightedProducts : List Int)
    (product : Product) : Bool :=
  !showOnlyHighlighted || highlightedProducts.contains product.id

/-- The callback given to `products.filter`. -/
def filterCallback (H : Host) (s : ShopState) (product : Product) : Bool :=
  matchesSearch H s.searchQuery product && matchesPrice s.filters product &&
  matchesSize s.filters product && matchesCategory s.filters product &&
  matchesHighlighted s.showOnlyHighlighted s.highlightedProducts product

/-- The callback given to `.sort`: the `switch` on `filters.sortBy`. -/
def sortCallback (filters : Filters) (a b : Product) : ℚ :=
  if filters.sortBy = "price-low" then a.price - b.price
  else if filters.sortBy = "price-high" then b.price - a.price
  else if filters.sortBy = "name" then localeCompare a.name b.name
  else 0

/-- The list `filteredProducts` computed on every render. -/
def filteredProducts (H : Host) (s : ShopState) : List Product :=
  sort (sortCallback s.filters) (s.products.filter (filterCallback H s))

/-- The helper `getProductCount` of the category select. -/
def getProductCount (s : ShopState) (category : String) : Nat :=
  (s.products.filter (fun p => p.category == category)).length

/-- The handler `clearFilters` of the Clear All button. -/
def clearFilters (s : ShopState) : ShopState :=
  { s with
    filters := { priceRange := "all", size := "all", category := "all", sortBy := "featured" }
    searchQuery := ""
    pendingFilters := { priceRange := "all", size := "all", category := "all", sortBy := "featured" }
    pendingSearchQuery := ""
    showOnlyHighlighted := false
    highlightedProducts := [] }

/-! ## The outside world: cart store and recommendation service -/

/-- A call made by the page to a function it imports. -/
inductive Call where
  | addToCart (product : Product)
  | addToWishlist (product : Product)
  | updateUserPreferences (product : Product) (kind : String) (duration : Option ℚ)
  | getPersonalizedRecommendations (n : Nat)
  | getTrendingProducts (n : Nat)
  deriving DecidableEq

/-- The imported functions, over a state `ω` of everything outside the
component: `addToCart` and `addToWishlist` of the auth context, and the three
functions of `services/RecommendationService`. -/
structure External (ω : Type) where
  addToCart : Product → ω → ω
  addToWishlist : Product → ω → ω
  updateUserPreferences : Product → String → Option ℚ → ω → ω
  getPersonalizedRecommendations : Nat → ω → List Product × ω
  getTrendingProducts : Nat → ω → List Product × ω

/-- The outside state together with the log of the calls made so far, oldest
first. -/
structure World (ω : Type) where
  ext : ω
  log : List Call

variable {ω : Type}

/-- The call `addToCart(product)`. -/
def callAddToCart (E : External ω) (product : Product) (w : World ω) : World ω :=
  { ext := E.addToCart product w.ext, log := w.log ++ [Call.addToCart product] }

/-- The call `addToWishlist(product)`. -/
def callAddToWishlist (E : External ω) (product : Product) (w : World ω) : World ω :=
  { ext := E.addToWishlist product w.ext, log := w.log ++ [Call.addToWishlist product] }

/-- The call `updateUserPreferences(product, kind, duration)`. -/
def callUpdateUserPreferences (E : External ω) (product : Product) (kind : String)
    (duration : Option ℚ) (w : World ω) : World ω :=
  { ext := E.updateUserPreferences product kind duration w.ext
    log := w.log ++ [Call.updateUserPreferences product kind duration] }

/-- The call `getPersonalizedRecommendations(n)`. -/
def callGetPersonalizedRecommendations (E : External ω) (n : Nat) (w : World ω) :
    List Product × World ω :=
  ((E.getPersonalizedRecommendations n w.ext).1,
   { ext := (E.getPersonalizedRecommendations n w.ext).2
     log := w.log ++ [Call.getPersonalizedRecommendations n] })

/-- The call `getTrendingProducts(n)`. -/
def callGetTrendingProducts (E : External ω) (n : Nat) (w : World ω) :
    List Product × World ω :=
  ((E.getTrendingProducts n w.ext).1,
   { ext := (E.getTrendingProducts n w.ext).2
     log := w.log ++ [Call.getTrendingProducts n] })

/-! ## Handlers and effects -/

/-- The handler `handleAddToCart`. -/
def handleAddToCart (E : External ω) (product : Product) (s : ShopState) (w : World ω) :
    ShopState × World ω :=
  let w1 := callAddToCart E product w
  let w2 := callUpdateUserPreferences E product "addToCart" none w1
  let r := callGetPersonalizedRecommendations E 4 w2
  ({ s with recommendedProducts := r.1 }, r.2)

/-- The handler `handleAddToWishlist`. -/
def handleAddToWishlist (E : External ω) (product : Product) (s : ShopState) (w : World ω) :
    ShopState × World ω :=
  let w1 := callAddToWishlist E product w
  let w2 := callUpdateUserPreferences E product "addToWishlist" none w1
  let r := callGetPersonalizedRecommendations E 4 w2
  ({ s with recommendedProducts := r.1 }, r.2)

/-- The body of the effect `useEffect(..., [])`, run once after the first
render. -/
def mountEffect (E : External ω) (s : ShopState) (w : World ω) : ShopState × World ω :=
  let r := callGetPersonalizedRecommendations E 4 w
  let t := callGetTrendingProducts E 4 r.2
  ({ s with recommendedProducts := r.1, trendingProducts := t.1 }, t.2)

/-- The handler `handleProductRecommendation` given to the chat widget. -/
def handleProductRecommendation (E : External ω) (products : List Int) (s : ShopState)
    (w : World ω) : ShopState × World ω :=
  let r := callGetPersonalizedRecommendations E 4 w
  ({ s with highlightedProducts := products, showOnlyHighlighted := true,
            recommendedProducts := r.1 }, r.2)

/-- The handler `handleProductClick` of a card of the product grid. -/
def handleProductClick (E : External ω) (product : Product) (s : ShopState) (w : World ω) :
    ShopState × World ω :=
  ({ s with selectedProduct := some product },
   callUpdateUserPreferences E product "view" none w)

/-- The handler `handleCloseProductModal`. -/
def handleCloseProductModal (s : ShopState) : ShopState :=
  { s with selectedProduct := none }

/-- The body of the effect `useEffect(..., [selectedProduct])`, run at time
`now` on the state of the render that scheduled it. -/
def viewEffect (E : External ω) (now : Nat) (s : ShopState) (w : World ω) :
    ShopState × World ω :=
  match s.selectedProduct with
  | some selectedProduct =>
    ({ s with viewStartTime := some now },
     callUpdateUserPreferences E selectedProduct "view" none w)
  | none =>
    match s.viewStartTime with
    | some viewStartTime =>
      if viewStartTime ≠ 0 then
        let duration : ℚ := ((now : ℚ) - (viewStartTime : ℚ)) / 1000
        match s.selectedProduct with
        | some selectedProduct =>
          (s, callUpdateUserPreferences E selectedProduct "view" (some duration) w)
        | none => (s, w)
      else (s, w)
    | none => (s, w)

/-- The effect runs after a render whose `selectedProduct` differs from the one
of the previous render. -/
def afterRender (E : External ω) (now : Nat) (previous : ShopState) (s : ShopState)
    (w : World ω) : ShopState × World ω :=
  if s.selectedProduct ≠ previous.selectedProduct then viewEffect E now s w else (s, w)

/-- A click on a card of the product grid at time `now`: the handler, then the
render it causes and the effect of that render. -/
def clickProduct (E : External ω) (now : Nat) (product : Product) (s : ShopState)
    (w : World ω) : ShopState × World ω :=
  let r := handleProductClick E product s w
  afterRender E now s r.1 r.2

/-- A click on the backdrop of the product modal at time `now`: the handler,
then the render it causes and the effect of that render. -/
def closeProductModal (E : External ω) (now : Nat) (s : ShopState) (w : World ω) :
    ShopState × World ω :=
  afterRender E now s (handleCloseProductModal s) w

/-- The implementation of the imported functions that only records the calls:
the outside state is unused. -/
def recorder : External Unit :=
  { addToCart := fun _ u => u
    addToWishlist := fun _ u => u
    updateUserPreferences := fun _ _ _ u => u
    getPersonalizedRecommendations := fun _ u => ([], u)
    getTrendingProducts := fun _ u => ([], u) }

/-! ## The filter panel, as its labels read -/

/-- What the labels of the Price Range select say: All Prices, Under $50,
$50 - $100, Over $100.  A value that is none of the four options keeps
nothing. -/
def withinPriceRange (priceRange : String) (price : ℚ) : Prop :=
  if priceRange = "all" then True
  else if priceRange = "under50" then price < 50
  else if priceRange = "50to100" then 50 ≤ price ∧ price ≤ 100
  else if priceRange = "over100" then price > 100
  else False

instance (priceRange : String) (price : ℚ) : Decidable (withinPriceRange priceRange price) := by
  unfold withinPriceRange
  infer_instance

/-- One text occurs in another, case ignored: the characters of the lowercased
needle stand next to one another, in their order, somewhere in the lowercased
text. -/
def OccursIn (H : Host) (needle text : String) : Prop :=
  ∃ before after : List Char,
    (H.toLowerCase text).data = before ++ (H.toLowerCase needle).data ++ after

/-- The five conditions a displayed product meets: the query occurs in its
name, its description or one of its tags (case ignored); its price is in the
selected range; its size and its category are the selected ones, `all`
selecting every value; it is highlighted when only highlighted products are
shown. -/
def Keeps (H : Host) (s : ShopState) (p : Product) : Prop :=
  (OccursIn H s.searchQuery p.name ∨ OccursIn H s.searchQuery p.description ∨
    ∃ tag ∈ p.tags, OccursIn H s.searchQuery tag) ∧
  withinPriceRange s.filters.priceRange p.price ∧
  (s.filters.size = "all" ∨ p.size = s.filters.size) ∧
  (s.filters.category = "all" ∨ p.category = s.filters.category) ∧
  (s.showOnlyHighlighted = true → p.id ∈ s.highlightedProducts)

instance (H : Host) (needle text : String) : Decidable (OccursIn H needle text) :=
  decidable_of_iff ((H.toLowerCase needle).data <:+: (H.toLowerCase text).data)
    ⟨fun ⟨before, after, h⟩ => ⟨before, after, h.symm⟩,
     fun ⟨before, after, h⟩ => ⟨before, after, h.symm⟩⟩

instance (H : Host) (s : ShopState) (p : Product) : Decidable (Keeps H s p) := by
  unfold Keeps
  infer_instance

/-- The four categories offered by the Category select. -/
def categories : List String := ["Dresses", "Tops", "Bottoms", "Outerwear"]

/-! ## Sample data -/

/-- A dress of the catalog, priced 45. -/
def sampleDress : Product :=
  { id := 1, name := "Summer Dress", description := "Light floral dress",
    tags := ["summer", "floral"], price := 45, size := "M", category := "Dresses",
    image := "/images/dress.jpg", score := none }

/-- A top of the catalog, priced 30. -/
def sampleTop : Product :=
  { id := 2, name := "Linen Top", description := "Plain top",
    tags := ["casual"], price := 30, size := "S", category := "Tops",
    image := "/images/top.jpg", score := none }

/-- A coat of the catalog, priced 120. -/
def sampleCoat : Product :=
  { id := 3, name := "Wool Coat", description := "Warm winter coat",
    tags := ["winter"], price := 120, size := "L", category := "Outerwear",
    image := "/images/coat.jpg", score := none }

/-- The catalog of the three sample products. -/
def sampleProducts : List Product := [sampleDress, sampleTop, sampleCoat]

/-- The sample catalog with the applied filters set to the given values. -/
def sampleState (filters : Filters) : ShopState :=
  { initialState sampleProducts with filters := filters }

/-! ## The product page `ProductDescription.jsx` -/

/-- The white space and line terminators that `parseInt` skips at the start
of its argument. -/
def isStrWhiteSpaceChar (c : Char) : Bool :=
  c.toNat == 9 || c.toNat == 10 || c.toNat == 11 || c.toNat == 12 || c.toNat == 13 ||
  c.toNat == 32 || c.toNat == 160 || c.toNat == 5760 ||
  (decide (8192 ≤ c.toNat) && decide (c.toNat ≤ 8202)) ||
  c.toNat == 8232 || c.toNat == 8233 || c.toNat == 8239 || c.toNat == 8287 ||
  c.toNat == 12288 || c.toNat == 65279

/-- The value of a character as a digit of the given radix, if it is one. -/
def digitValue (radix : Nat) (c : Char) : Option Nat :=
  if 48 ≤ c.toNat ∧ c.toNat ≤ 57 then
    (if c.toNat - 48 < radix then some (c.toNat - 48) else none)
  else if 97 ≤ c.toNat ∧ c.toNat ≤ 122 then
    (if c.toNat - 87 < radix then some (c.toNat - 87) else none)
  else if 65 ≤ c.toNat ∧ c.toNat ≤ 90 then
    (if c.toNat - 55 < radix then some (c.toNat - 55) else none)
  else none

/-- The values of the longest run of digits of the given radix that starts the
list. -/
def leadingDigits (radix : Nat) : List Char → List Nat
  | [] => []
  | c :: cs =>
    match digitValue radix c with
    | some v => v :: leadingDigits radix cs
    | none => []

/-- `parseInt(string)` without a radix: leading white space is skipped, a sign
is read, a `0x` or `0X` start selects radix 16, and the longest run of digits
is converted; `none` stands for `NaN`, returned when there is no digit.  The
integer is exact, as the JavaScript number is below `2^53`. -/
def parseInt (string : String) : Option Int :=
  let trimmed := string.data.dropWhile isStrWhiteSpaceChar
  let signed : Int × List Char :=
    match trimmed with
    | c :: rest => if c = '-' then (-1, rest) else if c = '+' then (1, rest) else (1, trimmed)
    | [] => (1, [])
  let based : Nat × List Char :=
    match signed.2 with
    | z :: x :: rest => if z = '0' ∧ (x = 'x' ∨ x = 'X') then (16, rest) else (10, signed.2)
    | other => (10, other)
  let digits := leadingDigits based.1 based.2
  if digits = [] then none
  else some (signed.1 * ((digits.foldl (fun acc d => acc * based.1 + d) 0 : Nat) : Int))

/-- The comparison `p.id === parseInt(id)` of a numeric id with a number that
may be `NaN`; `NaN` equals nothing. -/
def strictEquals (x : Int) (y : Option Int) : Bool :=
  match y with
  | some v => decide (x = v)
  | none => false

/-- An entry of the answer of the similar-clothes service, with the fields the
page reads. -/
structure SimilarProduct where
  image_url : String
  title : Option String
  price : Option String
  deriving DecidableEq

/-- The `useState` cells of the `ProductDescription` component. -/
structure DescriptionState where
  product : Option Product
  selectedSize : String
  quantity : Nat
  similarProducts : List SimilarProduct
  loadingSimilar : Bool
  deriving DecidableEq

/-- The state of `ProductDescription` on its first render. -/
def initialDescriptionState : DescriptionState :=
  { product := none, selectedSize := "", quantity := 1, similarProducts := [],
    loadingSimilar := false }

/-- The part of `fetchSimilarProducts(imageUrl)` that runs before the `await`:
the loading flag is raised and one request for the image is sent.  The second
component lists the image URLs requested. -/
def fetchSimilarProducts (imageUrl : String) (s : DescriptionState) :
    DescriptionState × List String :=
  ({ s with loadingSimilar := true }, [imageUrl])

/-- How a request for similar products ends: it fails, or it answers with data
that is an array or is not. -/
inductive SimilarResponse where
  | failed
  | notArray
  | array (data : List SimilarProduct)

/-- The part of `fetchSimilarProducts` that runs after the `await`, with its
`catch` and `finally` blocks. -/
def fetchSimilarProductsDone (response : SimilarResponse) (s : DescriptionState) :
    DescriptionState :=
  match response with
  | SimilarResponse.array data => { s with similarProducts := data, loadingSimilar := false }
  | SimilarResponse.notArray => { s with similarProducts := [], loadingSimilar := false }
  | SimilarResponse.failed => { s with similarProducts := [], loadingSimilar := false }

/-- The body of the effect `useEffect(..., [id])` of `ProductDescription`, over
the catalog `products` and the route parameter `id`. -/
def idEffect (products : List Product) (id : String) (s : DescriptionState) :
    DescriptionState × List String :=
  match products.find? (fun p => strictEquals p.id (parseInt id)) with
  | some foundProduct =>
    fetchSimilarProducts foundProduct.image
      { s with product := some foundProduct, selectedSize := foundProduct.size }
  | none => (s, [])

/-- What `ProductDescription` returns: the Product not found block, or the
page of the product with the selected size and the quantity. -/
inductive DescriptionView where
  | notFound
  | detail (product : Product) (selectedSize : String) (quantity : Nat)
  deriving DecidableEq

/-- The `return` of `ProductDescription`, guarded by `if (!product)`. -/
def renderDescription (s : DescriptionState) : DescriptionView :=
  match s.product with
  | none => DescriptionView.notFound
  | some product => DescriptionView.detail product s.selectedSize s.quantity

/-! ## The recommendation engine, as the specification describes it

`services/RecommendationService`, imported by the Shop page, is not among the
sources.  The definitions of this section follow sections 3 and 4 of the
specification.  They are written over any ordered field `K` of numbers, with
the exponential function as a parameter, so that they evaluate over the
rationals and can be read over the reals. -/

variable {K : Type} [LinearOrderedField K]

/-- Modelled from the spec: the `CatalogItem` of section 3, which the missing
`services/RecommendationService` scores. -/
structure CatalogItem (K : Type) where
  id : Int
  category : String
  tags : List String
  price : K

/-- Modelled from the spec: the `kind` of an `InteractionEvent` of the missing
`services/RecommendationService`, a closed variant in which only
`viewWithDuration` carries `durationSeconds`. -/
inductive EventKind (K : Type) where
  | view
  | viewWithDuration (durationSeconds : K)
  | addToCart
  | addToWishlist

/-- Modelled from the spec: the `InteractionEvent` of section 3, consumed by the
missing `services/RecommendationService`. -/
structure InteractionEvent (K : Type) where
  itemId : Int
  kind : EventKind K
  timestamp : K

/-- Modelled from the spec: the `PreferenceProfile` of section 3, kept by the
missing `services/RecommendationService`; the two mappings are association
lists, a key that is absent having weight 0. -/
structure PreferenceProfile (K : Type) where
  categoryWeight : List (String × K)
  tagWeight : List (String × K)
  priceAffinity : K
  lastUpdated : K

/-- Modelled from the spec: the `TrendingState` of section 3, kept by the
missing `services/RecommendationService`. -/
structure TrendingState (K : Type) where
  itemScore : List (Int × K)
  windowStart : K

/-- Modelled from the spec: the configuration constants `halfLifeSeconds`,
`α` and `λ` of the missing `services/RecommendationService`, and the
exponential function that its decay uses. -/
structure Config (K : Type) where
  halfLifeSeconds : K
  alpha : K
  lambda : K
  exp : K → K

/-- Modelled from the spec: the base weight of an event kind in `applyEvent`
(section 4.2) of the missing `services/RecommendationService`. -/
def baseWeight : EventKind K → K
  | EventKind.view => 1
  | EventKind.viewWithDuration durationSeconds => 1 + min durationSeconds 60 / 20
  | EventKind.addToCart => 5
  | EventKind.addToWishlist => 3

/-- Modelled from the spec: the weight of a key in a mapping of the missing
`services/RecommendationService`, `default 0`. -/
def weightOf (mapping : List (String × K)) (key : String) : K :=
  match mapping.lookup key with
  | some weight => weight
  | none => 0

/-- Modelled from the spec: `priceDistancePenalty` of section 4.3 of the
missing `services/RecommendationService`:
`λ * |item.price − profile.priceAffinity| / max(profile.priceAffinity, 1)`. -/
def priceDistancePenalty (cfg : Config K) (item : CatalogItem K)
    (profile : PreferenceProfile K) : K :=
  cfg.lambda * |item.price - profile.priceAffinity| / max profile.priceAffinity 1

/-- Modelled from the spec: `score` of section 4.3 of the missing
`services/RecommendationService`: category weight plus tag weights minus the
price-distance penalty, clamped to a minimum of 0. -/
def score (cfg : Config K) (item : CatalogItem K) (profile : PreferenceProfile K) : K :=
  max 0 (weightOf profile.categoryWeight item.category
    + (item.tags.map (weightOf profile.tagWeight)).sum
    - priceDistancePenalty cfg item profile)

/-- Modelled from the spec: the fresh, zero-weight profile that `startSession`
of the missing `services/RecommendationService` creates at time `now`. -/
def startSession (now : K) : PreferenceProfile K :=
  { categoryWeight := [], tagWeight := [], priceAffinity := 0, lastUpdated := now }

/-- Modelled from the spec: the decay factor `exp(-Δt / halfLifeSeconds)` of
the missing `services/RecommendationService`. -/
def decayFactor (cfg : Config K) (elapsed : K) : K :=
  cfg.exp (-elapsed / cfg.halfLifeSeconds)

/-- Modelled from the spec: the per-kind weight of `recordGlobal` (section 4.4)
of the missing `services/RecommendationService`: the base weights of section
4.2 with the duration term omitted. -/
def trendingWeight : EventKind K → K
  | EventKind.view => 1
  | EventKind.viewWithDuration _ => 1
  | EventKind.addToCart => 5
  | EventKind.addToWishlist => 3

/-- Modelled from the spec: the increment of `itemScore[itemId]` in the missing
`services/RecommendationService`; an item without a score gets one. -/
def increment (itemId : Int) (weight : K) : List (Int × K) → List (Int × K)
  | [] => [(itemId, weight)]
  | entry :: rest =>
    if entry.1 = itemId then (entry.1, entry.2 + weight) :: rest
    else entry :: increment itemId weight rest

/-- Modelled from the spec: `recordGlobal` of section 4.4 of the missing
`services/RecommendationService`: the entire map is decayed by the time elapsed
relative to `windowStart`, then the score of the item is incremented. -/
def recordGlobal (cfg : Config K) (state : TrendingState K) (event : InteractionEvent K) :
    TrendingState K :=
  { itemScore :=
      increment event.itemId (trendingWeight event.kind)
        (state.itemScore.map
          (fun entry => (entry.1, entry.2 * decayFactor cfg (event.timestamp - state.windowStart))))
    windowStart := state.windowStart }

/-- Modelled from the spec: `reset` of section 4.4 of the missing
`services/RecommendationService`, at time `now`. -/
def reset (now : K) : TrendingState K :=
  { itemScore := [], windowStart := now }

/-- Modelled from the spec: `trending(n)` of section 4.4 of the missing
`services/RecommendationService`: the top `n` item ids by `itemScore`
descending, ties broken by id ascending. -/
def trending (state : TrendingState K) (n : Nat) : List Int :=
  ((state.itemScore.insertionSort
      (fun a b => b.2 < a.2 ∨ (a.2 = b.2 ∧ a.1 ≤ b.1))).take n).map (fun entry => entry.1)

/-- Modelled from the spec: a sequence of events recorded one after the other
by `recordGlobal` of the missing `services/RecommendationService`. -/
def recordAll (cfg : Config K) (state : TrendingState K) (events : List (InteractionEvent K)) :
    TrendingState K :=
  events.foldl (recordGlobal cfg) state

/-- An `addToCart` event on an item at a time. -/
def addToCartAt (itemId : Int) (timestamp : K) : InteractionEvent K :=
  { itemId := itemId, kind := EventKind.addToCart, timestamp := timestamp }

/-- The item ids of three events on `x` and one on `y`, the one on `y` coming
after `k` of the others. -/
def interleaving (x y : Int) (k : Nat) : List Int :=
  List.replicate k x ++ y :: List.replicate (3 - k) x

/-- The design defaults of the specification, `halfLifeSeconds = 3600`,
`α = 0.3` and `λ = 0.5`, with a given exponential function. -/
def designDefaults (exp : K → K) : Config K :=
  { halfLifeSeconds := 3600, alpha := 3 / 10, lambda := 1 / 2, exp := exp }

/-- A catalog item for the sample dress. -/
def sampleItem : CatalogItem ℚ :=
  { id := 1, category := "Dresses", tags := ["summer", "floral"], price := 45 }

/-! ## The filter objects and the Apply Filters button -/

/-- A JavaScript object with string values: its own keys with their values, in
insertion order. -/
abbrev JsObject := List (String × String)

/-- The object `{ ...f, [key]: value }`: the keys of `f` in their order, the
value of `key` replaced where it stands, or added last when `f` lacks it. -/
def spreadSet (f : JsObject) (key value : String) : JsObject :=
  match f with
  | [] => [(key, value)]
  | entry :: rest =>
    if entry.1 = key then (entry.1, value) :: rest
    else entry :: spreadSet rest key value

/-- The value of a key of an object, `none` standing for `undefined`. -/
def field (o : JsObject) (key : String) : Option String :=
  o.lookup key

/-- The lowercase hexadecimal digit of a number below 16. -/
def hexDigit (n : Nat) : Char :=
  Char.ofNat (if n < 10 then 48 + n else 87 + n)

/-- The text that `JSON.stringify` writes for one character of a string: the
short escapes for backspace, tab, line feed, form feed, carriage return, the
double quote and the backslash, `\u00XX` for the other characters below the
space, and the character itself otherwise. -/
def quoteJSONChar (c : Char) : List Char :=
  if c.toNat = 8 then [Char.ofNat 92, 'b']
  else if c.toNat = 9 then [Char.ofNat 92, 't']
  else if c.toNat = 10 then [Char.ofNat 92, 'n']
  else if c.toNat = 12 then [Char.ofNat 92, 'f']
  else if c.toNat = 13 then [Char.ofNat 92, 'r']
  else if c.toNat = 34 then [Char.ofNat 92, Char.ofNat 34]
  else if c.toNat = 92 then [Char.ofNat 92, Char.ofNat 92]
  else if c.toNat < 32 then
    [Char.ofNat 92, 'u', '0', '0', hexDigit (c.toNat / 16), hexDigit (c.toNat % 16)]
  else [c]

/-- The text of the characters of a string, one after the other. -/
def quoteJSONChars : List Char → List Char
  | [] => []
  | c :: cs => quoteJSONChar c ++ quoteJSONChars cs

/-- The text that `JSON.stringify` writes for a string, between double
quotes. -/
def quoteJSONString (s : String) : List Char :=
  Char.ofNat 34 :: (quoteJSONChars s.data ++ [Char.ofNat 34])

/-- The text of the members of an object, separated by commas. -/
def stringifyMembers : JsObject → List Char
  | [] => []
  | [entry] => quoteJSONString entry.1 ++ ':' :: quoteJSONString entry.2
  | entry :: rest =>
    quoteJSONString entry.1 ++ ':' :: (quoteJSONString entry.2 ++ ',' :: stringifyMembers rest)

/-- `JSON.stringify` of an object with string values. -/
def JSON.stringify (o : JsObject) : String :=
  ⟨Char.ofNat 123 :: (stringifyMembers o ++ [Char.ofNat 125])⟩

/-- The four cells behind the filter panel; the two filter cells hold
objects. -/
structure PanelState where
  filters : JsObject
  pendingFilters : JsObject
  searchQuery : String
  pendingSearchQuery : String
  deriving DecidableEq

/-- The object literal of the filters, with its keys in the written order. -/
def filtersLiteral : JsObject :=
  [("priceRange", "all"), ("size", "all"), ("category", "all"), ("sortBy", "featured")]

/-- The keys of the filters, in the order of the literal. -/
def filterKeys : List String := ["priceRange", "size", "category", "sortBy"]

/-- The panel on the first render: `pendingFilters` starts as `filters` and
`pendingSearchQuery` as `searchQuery`. -/
def initialPanel : PanelState :=
  { filters := filtersLiteral, pendingFilters := filtersLiteral,
    searchQuery := "", pendingSearchQuery := "" }

/-- The `onChange` of a select of the panel:
`setPendingFilters(f => ({ ...f, [key]: e.target.value }))`. -/
def selectOnChange (key value : String) (s : PanelState) : PanelState :=
  { s with pendingFilters := spreadSet s.pendingFilters key value }

/-- The `onChange` of the search input: `setPendingSearchQuery(e.target.value)`. -/
def searchOnChange (value : String) (s : PanelState) : PanelState :=
  { s with pendingSearchQuery := value }

/-- The handler `clearFilters`, on the cells of the panel. -/
def clearPanel (_s : PanelState) : PanelState :=
  { filters := filtersLiteral, pendingFilters := filtersLiteral,
    searchQuery := "", pendingSearchQuery := "" }

/-- The `onClick` of the Apply Filters button. -/
def applyOnClick (s : PanelState) : PanelState :=
  { s with filters := s.pendingFilters, searchQuery := s.pendingSearchQuery }

/-- The `disabled` attribute of the Apply Filters button. -/
def applyDisabled (s : PanelState) : Bool :=
  JSON.stringify s.filters == JSON.stringify s.pendingFilters &&
  s.searchQuery == s.pendingSearchQuery

/-- The states of the panel reached from the first render through the four
selects, the search input, Clear All and Apply Filters. -/
inductive Reachable : PanelState → Prop where
  | initial : Reachable initialPanel
  | select (key value : String) (s : PanelState) :
      key ∈ filterKeys → Reachable s → Reachable (selectOnChange key value s)
  | search (value : String) (s : PanelState) : Reachable s → Reachable (searchOnChange value s)
  | clear (s : PanelState) : Reachable s → Reachable (clearPanel s)
  | apply (s : PanelState) : Reachable s → Reachable (applyOnClick s)

/-- Reading back one character written by `quoteJSONChar` from the start of a
text; used to show that the text determines the string. -/
def unquoteJSONChar : List Char → Option (Char × List Char)
  | [] => none
  | c :: r =>
    if c.toNat = 34 then none
    else if c.toNat = 92 then
      match r with
      | [] => none
      | e :: r1 =>
        if e = 'b' then some (Char.ofNat 8, r1)
        else if e = 't' then some (Char.ofNat 9, r1)
        else if e = 'n' then some (Char.ofNat 10, r1)
        else if e = 'f' then some (Char.ofNat 12, r1)
        else if e = 'r' then some (Char.ofNat 13, r1)
        else if e.toNat = 34 then some (Char.ofNat 34, r1)
        else if e.toNat = 92 then some (Char.ofNat 92, r1)
        else
          match r1 with
          | _ :: _ :: h :: l :: r2 =>
            some (Char.ofNat (16 * (if h.toNat < 58 then h.toNat - 48 else h.toNat - 87)
                    + (if l.toNat < 58 then l.toNat - 48 else l.toNat - 87)), r2)
          | _ => none
    else some (c, r)

/-- The sample catalog searched for `FLORAL` among the products under 50. -/
def searchedState : ShopState :=
  { sampleState { defaultFilters with priceRange := "under50" } with searchQuery := "FLORAL" }

/-! ## View tracking -/

/-- C1. Closing the product modal makes no call at all, whatever the state,
the time and the service: in particular no view interaction carrying a duration
reaches `updateUserPreferences`.  With the recording service, opening the dress
at time 1000 and closing it at time 6000 leaves only the calls made on
opening, none of them with the duration 5. -/
theorem closeProductModal_makes_no_call :
    (∀ (α : Type) (E : External α) (now : Nat) (s : ShopState) (w : World α),
        (closeProductModal E now s w).2.log = w.log ∧
        (closeProductModal E now s w).2.ext = w.ext) ∧
    (clickProduct recorder 1000 sampleDress (initialState [sampleDress]) ⟨(), []⟩).1.viewStartTime
      = some 1000 ∧
    (closeProductModal recorder 6000
        (clickProduct recorder 1000 sampleDress (initialState [sampleDress]) ⟨(), []⟩).1
        (clickProduct recorder 1000 sampleDress (initialState [sampleDress]) ⟨(), []⟩).2).2.log
      = [Call.updateUserPreferences sampleDress "view" none,
         Call.updateUserPreferences sampleDress "view" none] := by
  have key : ∀ (α : Type) (E : External α) (now : Nat) (s : ShopState) (w : World α),
      (closeProductModal E now s w).2 = w := by
    intro α E now s w
    unfold closeProductModal afterRender
    split
    · unfold viewEffect handleCloseProductModal
      dsimp only
      split
      · split <;> rfl
      · rfl
    · rfl
  refine ⟨fun α E now s w => ?_, ?_, ?_⟩
  · rw [key]; exact ⟨rfl, rfl⟩
  · simp [clickProduct, afterRender, handleProductClick, viewEffect, initialState]
  · rw [key]
    simp [clickProduct, afterRender, handleProductClick, viewEffect, initialState,
      callUpdateUserPreferences]

/-- C5. A click on a card while no product is selected passes two `view`
interactions for the product to `updateUserPreferences`: one from
`handleProductClick`, one from the effect that the new selection triggers. -/
theorem clickProduct_reports_view_twice (E : External ω) (now : Nat) (p : Product)
    (s : ShopState) (w : World ω) :
    (clickProduct E now p { s with selectedProduct := none } w).2.log
      = w.log ++ [Call.updateUserPreferences p "view" none,
                  Call.updateUserPreferences p "view" none] := by
  simp [clickProduct, afterRender, handleProductClick, viewEffect, callUpdateUserPreferences]

/-! ## Match bar and label -/

theorem mathMin_eq_min (x y : ℚ) : Math.min x y = min x y := by
  unfold Math.min
  rw [min_def]

/-- C2. For the score 6 the bar is 100 percent wide while the label prints 120:
the label is `Math.round(score * 20)`, without the `Math.min(100, ...)` that
the bar applies. -/
theorem renderMatch_label_not_clamped :
    renderMatch { sampleDress with score := some 6 }
      = some { barWidth := 100, label := 120 } := by
  have h : ⌊((6 : ℚ) * 20 + 1 / 2)⌋ = 120 := by
    rw [Int.floor_eq_iff]; constructor <;> norm_num
  simp only [renderMatch, Math.round, Math.min, h]
  norm_num

/-- C3. For a product of score `s ≥ 0`, every match bar that is rendered has
width `min(100, s * 20)`, which lies in `[0, 100]`, equals `s * 20` when
`s ≤ 5` and `100` when `s ≥ 5`; and a bar is rendered as soon as `s > 0`. -/
theorem renderMatch_barWidth (p : Product) (s : ℚ) (hp : p.score = some s) (hs : 0 ≤ s) :
    (∀ v, renderMatch p = some v →
        v.barWidth = min 100 (s * 20) ∧ 0 ≤ v.barWidth ∧ v.barWidth ≤ 100 ∧
        (s ≤ 5 → v.barWidth = s * 20) ∧ (5 ≤ s → v.barWidth = 100)) ∧
    (0 < s → ∃ v, renderMatch p = some v ∧ v.barWidth = min 100 (s * 20)) := by
  constructor
  · intro v hv
    have hw : v.barWidth = min 100 (s * 20) := by
      unfold renderMatch at hv
      rw [hp] at hv
      dsimp only at hv
      split at hv
      · cases hv
        exact mathMin_eq_min _ _
      · cases hv
    refine ⟨hw, ?_, ?_, ?_, ?_⟩
    · rw [hw]; exact le_min (by norm_num) (by linarith)
    · rw [hw]; exact min_le_left _ _
    · intro h5; rw [hw]; exact min_eq_right (by linarith)
    · intro h5; rw [hw]; exact min_eq_left (by linarith)
  · intro hpos
    refine ⟨{ barWidth := Math.min 100 (s * 20), label := Math.round (s * 20) }, ?_,
      mathMin_eq_min _ _⟩
    unfold renderMatch
    rw [hp]
    dsimp only
    rw [if_pos (ne_of_gt hpos)]

/-- Witness of `renderMatch_barWidth`, at the score 3. -/
theorem renderMatch_barWidth_witness :
    (∀ v, renderMatch { sampleDress with score := some 3 } = some v →
        v.barWidth = min 100 ((3 : ℚ) * 20) ∧ 0 ≤ v.barWidth ∧ v.barWidth ≤ 100 ∧
        ((3 : ℚ) ≤ 5 → v.barWidth = 3 * 20) ∧ ((5 : ℚ) ≤ 3 → v.barWidth = 100)) ∧
    ((0 : ℚ) < 3 → ∃ v, renderMatch { sampleDress with score := some 3 } = some v ∧
        v.barWidth = min 100 ((3 : ℚ) * 20)) :=
  renderMatch_barWidth { sampleDress with score := some 3 } 3 rfl (by norm_num)

/-! ## Cart and wishlist actions -/

/-- C4. `handleAddToCart(p)` calls `addToCart(p)`, then
`updateUserPreferences(p, 'addToCart')` without a duration, then
`getPersonalizedRecommendations(4)`, in this order and nothing else; the list
stored in `recommendedProducts` is the one returned by the service in the state
reached after the two earlier calls, and no other state cell changes.
`handleAddToWishlist(p)` does the same with `addToWishlist` and the kind
`'addToWishlist'`. -/
theorem handleAdd_reports_then_refreshes (E : External ω) (p : Product) (s : ShopState)
    (w : World ω) :
    ((handleAddToCart E p s w).2.log
        = w.log ++ [Call.addToCart p, Call.updateUserPreferences p "addToCart" none,
                    Call.getPersonalizedRecommendations 4] ∧
      (handleAddToCart E p s w).1
        = { s with recommendedProducts :=
              (E.getPersonalizedRecommendations 4
                (E.updateUserPreferences p "addToCart" none (E.addToCart p w.ext))).1 } ∧
      (handleAddToCart E p s w).2.ext
        = (E.getPersonalizedRecommendations 4
            (E.updateUserPreferences p "addToCart" none (E.addToCart p w.ext))).2) ∧
    ((handleAddToWishlist E p s w).2.log
        = w.log ++ [Call.addToWishlist p, Call.updateUserPreferences p "addToWishlist" none,
                    Call.getPersonalizedRecommendations 4] ∧
      (handleAddToWishlist E p s w).1
        = { s with recommendedProducts :=
              (E.getPersonalizedRecommendations 4
                (E.updateUserPreferences p "addToWishlist" none (E.addToWishlist p w.ext))).1 } ∧
      (handleAddToWishlist E p s w).2.ext
        = (E.getPersonalizedRecommendations 4
            (E.updateUserPreferences p "addToWishlist" none (E.addToWishlist p w.ext))).2) := by
  simp [handleAddToCart, handleAddToWishlist, callAddToCart, callAddToWishlist,
    callUpdateUserPreferences, callGetPersonalizedRecommendations]

/-! ## Filtering and sorting: auxiliary facts -/

theorem includes_empty (H : Host) (haystack : String) :
    includes haystack (H.toLowerCase "") = true := by
  simp [includes, H.toLowerCase_empty]

theorem matchesSearch_empty (H : Host) (p : Product) : matchesSearch H "" p = true := by
  simp [matchesSearch, includes_empty]

theorem includes_iff (H : Host) (needle text : String) :
    includes (H.toLowerCase text) (H.toLowerCase needle) = true ↔ OccursIn H needle text := by
  unfold includes OccursIn
  rw [decide_eq_true_iff]
  constructor
  · rintro ⟨before, after, h⟩
    exact ⟨before, after, h.symm⟩
  · rintro ⟨before, after, h⟩
    exact ⟨before, after, h.symm⟩

theorem sort_perm {α : Type} (compare : α → α → ℚ) (l : List α) :
    (sort compare l).Perm l :=
  List.perm_insertionSort _ l

theorem mem_sort {α : Type} (compare : α → α → ℚ) (l : List α) (a : α) :
    a ∈ sort compare l ↔ a ∈ l :=
  (sort_perm compare l).mem_iff

theorem sort_of_le_zero {α : Type} (compare : α → α → ℚ) (h : ∀ a b, compare a b ≤ 0) :
    ∀ l : List α, sort compare l = l
  | [] => rfl
  | a :: l => by
    have ih := sort_of_le_zero compare h l
    unfold sort at ih ⊢
    rw [List.insertionSort_cons (fun x y => compare x y ≤ 0) (fun b _ => h a b), ih]

theorem sortCallback_other (f : Filters) (h1 : f.sortBy ≠ "price-low")
    (h2 : f.sortBy ≠ "price-high") (h3 : f.sortBy ≠ "name") (a b : Product) :
    sortCallback f a b = 0 := by
  simp [sortCallback, h1, h2, h3]

theorem filteredProducts_perm (H : Host) (s : ShopState) :
    (filteredProducts H s).Perm (s.products.filter (filterCallback H s)) :=
  sort_perm _ _

theorem mem_filteredProducts (H : Host) (s : ShopState) (p : Product) :
    p ∈ filteredProducts H s ↔ p ∈ s.products ∧ filterCallback H s p = true := by
  unfold filteredProducts
  rw [mem_sort, List.mem_filter]

/-! ## Clear All -/

/-- C8. After `clearFilters`, the applied and the pending filters are both
`{priceRange 'all', size 'all', category 'all', sortBy 'featured'}`, both search
queries are empty, `showOnlyHighlighted` is false, `highlightedProducts` is
empty, and `filteredProducts` is the whole `products` list in its order. -/
theorem clearFilters_restores_catalog (H : Host) (s : ShopState) :
    (clearFilters s).filters
        = { priceRange := "all", size := "all", category := "all", sortBy := "featured" } ∧
    (clearFilters s).pendingFilters
        = { priceRange := "all", size := "all", category := "all", sortBy := "featured" } ∧
    (clearFilters s).searchQuery = "" ∧
    (clearFilters s).pendingSearchQuery = "" ∧
    (clearFilters s).showOnlyHighlighted = false ∧
    (clearFilters s).highlightedProducts = [] ∧
    (clearFilters s).products = s.products ∧
    filteredProducts H (clearFilters s) = s.products := by
  refine ⟨rfl, rfl, rfl, rfl, rfl, rfl, rfl, ?_⟩
  unfold filteredProducts
  rw [sort_of_le_zero]
  · have hall : ∀ p : Product, filterCallback H (clearFilters s) p = true := by
      intro p
      simp [filterCallback, clearFilters, matchesSearch_empty, matchesPrice, matchesSize,
        matchesCategory, matchesHighlighted]
    show List.filter (filterCallback H (clearFilters s)) s.products = s.products
    rw [List.filter_eq_self]
    exact fun p _ => hall p
  · intro a b
    rw [sortCallback_other] <;> simp [clearFilters]

/-! ## The filter predicate -/

theorem matchesPrice_iff (f : Filters) (p : Product) :
    matchesPrice f p = true ↔ withinPriceRange f.priceRange p.price := by
  unfold matchesPrice withinPriceRange
  by_cases h1 : f.priceRange = "all"
  · simp [h1]
  by_cases h2 : f.priceRange = "under50"
  · simp [h2]
  by_cases h3 : f.priceRange = "50to100"
  · simp [h3]
  by_cases h4 : f.priceRange = "over100"
  · simp [h4]
  simp [h1, h2, h3, h4]

theorem filterCallback_iff (H : Host) (s : ShopState) (p : Product) :
    filterCallback H s p = true ↔ Keeps H s p := by
  unfold filterCallback Keeps
  simp only [Bool.and_eq_true, matchesPrice_iff]
  have hh : (matchesHighlighted s.showOnlyHighlighted s.highlightedProducts p = true) ↔
      (s.showOnlyHighlighted = true → p.id ∈ s.highlightedProducts) := by
    unfold matchesHighlighted
    cases s.showOnlyHighlighted <;> simp
  have hs : matchesSearch H s.searchQuery p = true ↔
      (OccursIn H s.searchQuery p.name ∨ OccursIn H s.searchQuery p.description ∨
        ∃ tag ∈ p.tags, OccursIn H s.searchQuery tag) := by
    unfold matchesSearch
    simp only [Bool.or_eq_true, List.any_eq_true, includes_iff, or_assoc]
  rw [hh, hs]
  simp [matchesSize, matchesCategory, and_assoc]

/-- C6. The displayed list holds exactly the products that meet the five
conditions at once, each as often as in `products`: the lowercased query stands
as a run of adjacent characters in the lowercased name, description or some
tag; the price is in the selected range, the options keeping `price < 50`,
`50 <= price <= 100`, `price > 100` and every price; the size and the category
are the selected ones or `all` is selected; the product is highlighted when only
highlighted ones are shown.  When `sortBy` selects no reordering the list is the
sub-list of `products` in its order. -/
theorem filteredProducts_keeps (H : Host) (s : ShopState) :
    (filteredProducts H s).Perm (s.products.filter (fun p => decide (Keeps H s p))) ∧
    (∀ p, p ∈ filteredProducts H s ↔ p ∈ s.products ∧ Keeps H s p) ∧
    (∀ price : ℚ,
      (withinPriceRange "under50" price ↔ price < 50) ∧
      (withinPriceRange "50to100" price ↔ 50 ≤ price ∧ price ≤ 100) ∧
      (withinPriceRange "over100" price ↔ price > 100) ∧
      withinPriceRange "all" price) ∧
    (s.filters.sortBy ≠ "price-low" → s.filters.sortBy ≠ "price-high" →
      s.filters.sortBy ≠ "name" →
      filteredProducts H s = s.products.filter (fun p => decide (Keeps H s p))) := by
  have hfun : (fun p => decide (Keeps H s p)) = filterCallback H s := by
    funext p
    rw [Bool.eq_iff_iff, decide_eq_true_iff, filterCallback_iff]
  rw [hfun]
  refine ⟨filteredProducts_perm H s, fun p => ?_, fun price => ?_, fun h1 h2 h3 => ?_⟩
  · rw [mem_filteredProducts, filterCallback_iff]
  · simp [withinPriceRange]
  · unfold filteredProducts
    exact sort_of_le_zero _ (fun a b => le_of_eq (sortCallback_other _ h1 h2 h3 a b)) _

theorem occursIn_floral_dress : OccursIn basicLatin "FLORAL" sampleDress.description :=
  ⟨"light ".data, " dress".data, rfl⟩

theorem not_occursIn_floral_top :
    ¬ (OccursIn basicLatin "FLORAL" sampleTop.name ∨
        OccursIn basicLatin "FLORAL" sampleTop.description ∨
        ∃ tag ∈ sampleTop.tags, OccursIn basicLatin "FLORAL" tag) := by
  decide

theorem keeps_searchedState :
    Keeps basicLatin searchedState sampleDress ∧ ¬ Keeps basicLatin searchedState sampleTop ∧
    ¬ Keeps basicLatin searchedState sampleCoat := by
  refine ⟨⟨Or.inr (Or.inl occursIn_floral_dress), ?_, Or.inl rfl, Or.inl rfl, ?_⟩, ?_, ?_⟩
  · show withinPriceRange "under50" (45 : ℚ)
    norm_num [withinPriceRange]
  · intro h
    cases h
  · exact fun h => not_occursIn_floral_top h.1
  · intro h
    have hp : withinPriceRange "under50" (120 : ℚ) := h.2.1
    norm_num [withinPriceRange] at hp
    exact absurd hp (by decide)

/-- Witness of `filteredProducts_keeps`: searching the sample catalog for
`FLORAL` among the products under 50 displays the dress alone: the top is under
50 but nothing of it holds the query, the coat is priced 120. -/
theorem filteredProducts_keeps_witness :
    filteredProducts basicLatin searchedState = [sampleDress] :=
  ((filteredProducts_keeps basicLatin searchedState).2.2.2
      (by decide) (by decide) (by decide)).trans
    (by
      show List.filter (fun p => decide (Keeps basicLatin searchedState p))
        [sampleDress, sampleTop, sampleCoat] = [sampleDress]
      simp [List.filter, keeps_searchedState.1, keeps_searchedState.2.1,
        keeps_searchedState.2.2])

/-! ## Sorting by price -/

theorem sort_pairwise {α : Type} (compare : α → α → ℚ)
    (htotal : ∀ a b, compare a b ≤ 0 ∨ compare b a ≤ 0)
    (htrans : ∀ a b c, compare a b ≤ 0 → compare b c ≤ 0 → compare a c ≤ 0)
    (l : List α) : (sort compare l).Pairwise (fun a b => compare a b ≤ 0) := by
  haveI : IsTotal α (fun a b => compare a b ≤ 0) := ⟨htotal⟩
  haveI : IsTrans α (fun a b => compare a b ≤ 0) := ⟨htrans⟩
  exact List.sorted_insertionSort (fun a b => compare a b ≤ 0) l

/-- C7. With `sortBy = 'price-low'` the displayed list is a permutation of the
products passing the filter and its prices never decrease from one position to
a later one; with `sortBy = 'price-high'` it is a permutation and its prices
never increase. -/
theorem filteredProducts_sorted_by_price (H : Host) (s : ShopState) :
    (s.filters.sortBy = "price-low" →
      (filteredProducts H s).Perm (s.products.filter (filterCallback H s)) ∧
      (filteredProducts H s).Pairwise (fun a b => a.price ≤ b.price)) ∧
    (s.filters.sortBy = "price-high" →
      (filteredProducts H s).Perm (s.products.filter (filterCallback H s)) ∧
      (filteredProducts H s).Pairwise (fun a b => a.price ≥ b.price)) := by
  constructor
  · intro h
    refine ⟨filteredProducts_perm H s, ?_⟩
    have hc : ∀ a b, sortCallback s.filters a b = a.price - b.price := by
      intro a b; simp [sortCallback, h]
    have := sort_pairwise (sortCallback s.filters)
      (fun a b => by
        rw [hc, hc]
        rcases le_total a.price b.price with h' | h'
        · left; linarith
        · right; linarith)
      (fun a b c => by rw [hc, hc, hc]; intro h1 h2; linarith)
      (s.products.filter (filterCallback H s))
    refine this.imp ?_
    intro a b hab
    rw [hc] at hab
    linarith
  · intro h
    refine ⟨filteredProducts_perm H s, ?_⟩
    have hc : ∀ a b, sortCallback s.filters a b = b.price - a.price := by
      intro a b; simp [sortCallback, h]
    have := sort_pairwise (sortCallback s.filters)
      (fun a b => by
        rw [hc, hc]
        rcases le_total a.price b.price with h' | h'
        · right; linarith
        · left; linarith)
      (fun a b c => by rw [hc, hc, hc]; intro h1 h2; linarith)
      (s.products.filter (filterCallback H s))
    refine this.imp ?_
    intro a b hab
    rw [hc] at hab
    show b.price ≤ a.price
    linarith

/-- Witness of `filteredProducts_sorted_by_price`: the sample catalog sorted by
ascending price. -/
theorem filteredProducts_sorted_by_price_witness :
    (filteredProducts basicLatin (sampleState { defaultFilters with sortBy := "price-low" })).Perm
      ((sampleState { defaultFilters with sortBy := "price-low" }).products.filter
        (filterCallback basicLatin (sampleState { defaultFilters with sortBy := "price-low" }))) ∧
    (filteredProducts basicLatin (sampleState { defaultFilters with sortBy := "price-low" })).Pairwise
      (fun a b => a.price ≤ b.price) :=
  (filteredProducts_sorted_by_price basicLatin
    (sampleState { defaultFilters with sortBy := "price-low" })).1 rfl

/-! ## Category counts -/

theorem categoryCount_cons (c : String) (p : Product) (l : List Product) :
    ((p :: l).filter (fun q => q.category == c)).length
      = (if p.category = c then 1 else 0) + (l.filter (fun q => q.category == c)).length := by
  by_cases h : p.category = c
  · simp [List.filter_cons, h, Nat.add_comm]
  · simp [List.filter_cons, h]

theorem categoryCount_sum_le (l : List Product) :
    (l.filter (fun q => q.category == "Dresses")).length
      + (l.filter (fun q => q.category == "Tops")).length
      + (l.filter (fun q => q.category == "Bottoms")).length
      + (l.filter (fun q => q.category == "Outerwear")).length ≤ l.length := by
  induction l with
  | nil => simp
  | cons p l ih =>
    simp only [categoryCount_cons, List.length_cons]
    by_cases h1 : p.category = "Dresses"
    · simp [h1]; omega
    by_cases h2 : p.category = "Tops"
    · simp [h2]; omega
    by_cases h3 : p.category = "Bottoms"
    · simp [h3]; omega
    by_cases h4 : p.category = "Outerwear"
    · simp [h4]; omega
    simp [h1, h2, h3, h4]; omega

theorem categoryCount_sum_eq (l : List Product) (hl : ∀ p ∈ l, p.category ∈ categories) :
    (l.filter (fun q => q.category == "Dresses")).length
      + (l.filter (fun q => q.category == "Tops")).length
      + (l.filter (fun q => q.category == "Bottoms")).length
      + (l.filter (fun q => q.category == "Outerwear")).length = l.length := by
  induction l with
  | nil => simp
  | cons p l ih =>
    have ih' := ih (fun q hq => hl q (List.mem_cons_of_mem _ hq))
    have hp : p.category ∈ categories := hl p (List.mem_cons_self _ _)
    simp only [categoryCount_cons, List.length_cons]
    simp only [categories, List.mem_cons, List.mem_nil_iff, or_false] at hp
    rcases hp with h | h | h | h <;> simp [h] <;> omega

/-- C9. `getProductCount(c)` is the number of products whose category is `c`;
the counts shown for Dresses, Tops, Bottoms and Outerwear sum to at most
`products.length`, and to exactly `products.length` when every product has one
of these four categories. -/
theorem getProductCount_sum (s : ShopState) :
    (∀ c, getProductCount s c = (s.products.map (fun p => p.category)).count c) ∧
    getProductCount s "Dresses" + getProductCount s "Tops" + getProductCount s "Bottoms"
      + getProductCount s "Outerwear" ≤ s.products.length ∧
    ((∀ p ∈ s.products, p.category ∈ categories) →
      getProductCount s "Dresses" + getProductCount s "Tops" + getProductCount s "Bottoms"
        + getProductCount s "Outerwear" = s.products.length) := by
  refine ⟨fun c => ?_, categoryCount_sum_le s.products, categoryCount_sum_eq s.products⟩
  unfold getProductCount
  induction s.products with
  | nil => rfl
  | cons p l ih =>
    rw [categoryCount_cons, ih, List.map_cons, List.count_cons]
    by_cases h : p.category = c
    · simp [h, Nat.add_comm]
    · simp [h]

/-- Witness of `getProductCount_sum`: the sample catalog, one dress, one top and
one coat. -/
theorem getProductCount_sum_witness :
    getProductCount (sampleState defaultFilters) "Dresses"
      + getProductCount (sampleState defaultFilters) "Tops"
      + getProductCount (sampleState defaultFilters) "Bottoms"
      + getProductCount (sampleState defaultFilters) "Outerwear"
      = (sampleState defaultFilters).products.length :=
  (getProductCount_sum (sampleState defaultFilters)).2.2 (by decide)

/-! ## Show only recommended items -/

/-- C10. When `showOnlyHighlighted` is true every displayed product has its id
in `highlightedProducts`, so nothing is displayed when that list is empty; when
it is false the displayed list does not depend on `highlightedProducts`. -/
theorem filteredProducts_highlighted (H : Host) (s : ShopState) :
    (s.showOnlyHighlighted = true →
      (∀ p ∈ filteredProducts H s, p.id ∈ s.highlightedProducts) ∧
      (s.highlightedProducts = [] → filteredProducts H s = [])) ∧
    (s.showOnlyHighlighted = false →
      ∀ h : List Int, filteredProducts H { s with highlightedProducts := h }
        = filteredProducts H s) := by
  constructor
  · intro hs
    have hmem : ∀ p ∈ filteredProducts H s, p.id ∈ s.highlightedProducts := by
      intro p hp
      exact ((filterCallback_iff H s p).1 ((mem_filteredProducts H s p).1 hp).2).2.2.2.2 hs
    refine ⟨hmem, fun hnil => ?_⟩
    rw [List.eq_nil_iff_forall_not_mem]
    intro p hp
    have := hmem p hp
    rw [hnil] at this
    exact List.not_mem_nil _ this
  · intro hs h
    have hfun : filterCallback H { s with highlightedProducts := h } = filterCallback H s := by
      funext p
      simp [filterCallback, matchesHighlighted, hs]
    unfold filteredProducts
    rw [hfun]

/-- Witness of `filteredProducts_highlighted`: with the coat and the dress
highlighted, the sample catalog displays products of these two ids only. -/
theorem filteredProducts_highlighted_witness :
    (∀ p ∈ filteredProducts basicLatin { sampleState defaultFilters with
          showOnlyHighlighted := true, highlightedProducts := [3, 1] },
        p.id ∈ ([3, 1] : List Int)) ∧
    (([3, 1] : List Int) = [] →
      filteredProducts basicLatin { sampleState defaultFilters with
          showOnlyHighlighted := true, highlightedProducts := [3, 1] } = []) :=
  (filteredProducts_highlighted basicLatin { sampleState defaultFilters with
      showOnlyHighlighted := true, highlightedProducts := [3, 1] }).1 rfl

/-! ## The product page -/

theorem find_first (n : Int) (y : Option Int) (hy : y = some n) :
    ∀ (before after : List Product) (p : Product), p.id = n → (∀ q ∈ before, q.id ≠ n) →
      (before ++ p :: after).find? (fun q => strictEquals q.id y) = some p
  | [], after, p, hp, _ => by
    subst hy
    simp [List.find?, strictEquals, hp]
  | b :: before, after, p, hp, hb => by
    have hne : strictEquals b.id y = false := by
      subst hy
      simp [strictEquals, hb b (List.mem_cons_self _ _)]
    rw [List.cons_append, List.find?_cons, hne]
    exact find_first n y hy before after p hp (fun q hq => hb q (List.mem_cons_of_mem _ hq))

theorem find_none (products : List Product) (y : Option Int)
    (h : ∀ p ∈ products, some p.id ≠ y) :
    products.find? (fun q => strictEquals q.id y) = none := by
  rw [List.find?_eq_none]
  intro p hp
  have := h p hp
  cases y with
  | none => simp [strictEquals]
  | some v =>
    simp only [strictEquals, decide_eq_true_eq]
    intro hpv
    exact this (by rw [hpv])

/-- C11. When `parseInt(id)` is the number `n` and `p` is the first catalog
product whose id is `n`, the effect stores `p`, initialises `selectedSize` to
its size and requests similar products for its image, and the page of `p` is
rendered.  When no catalog product has the id `parseInt(id)`, which includes
`NaN`, the effect changes nothing and requests nothing: a `product` that was
`null` stays `null` and Product not found is rendered. -/
theorem idEffect_resolves (products : List Product) (id : String) (s : DescriptionState) :
    (∀ (n : Int) (before after : List Product) (p : Product),
        parseInt id = some n → products = before ++ p :: after → p.id = n →
        (∀ q ∈ before, q.id ≠ n) →
        idEffect products id s
          = ({ s with product := some p, selectedSize := p.size, loadingSimilar := true },
             [p.image]) ∧
        renderDescription (idEffect products id s).1
          = DescriptionView.detail p p.size s.quantity) ∧
    ((∀ p ∈ products, some p.id ≠ parseInt id) →
        idEffect products id s = (s, []) ∧
        (s.product = none →
          (idEffect products id s).1.product = none ∧
          renderDescription (idEffect products id s).1 = DescriptionView.notFound)) ∧
    (parseInt id = none → idEffect products id s = (s, [])) := by
  refine ⟨fun n before after p hn hprod hp hb => ?_, fun hnone => ?_, fun hnan => ?_⟩
  · have hfind := find_first n (parseInt id) hn before after p hp hb
    have heff : idEffect products id s
        = ({ s with product := some p, selectedSize := p.size, loadingSimilar := true },
           [p.image]) := by
      unfold idEffect
      rw [hprod, hfind]
      rfl
    refine ⟨heff, ?_⟩
    rw [heff]
    rfl
  · have heff : idEffect products id s = (s, []) := by
      unfold idEffect
      rw [find_none products (parseInt id) hnone]
    refine ⟨heff, fun hs => ?_⟩
    rw [heff]
    refine ⟨hs, ?_⟩
    unfold renderDescription
    rw [hs]
  · unfold idEffect
    rw [find_none products (parseInt id) (fun p _ => by rw [hnan]; exact fun h => by cases h)]

/-- Witness of `idEffect_resolves`: in the sample catalog the route parameter
`2` resolves to the top. -/
theorem idEffect_resolves_witness :
    idEffect sampleProducts "2" initialDescriptionState
      = ({ initialDescriptionState with
             product := some sampleTop, selectedSize := sampleTop.size, loadingSimilar := true },
         [sampleTop.image]) ∧
    renderDescription (idEffect sampleProducts "2" initialDescriptionState).1
      = DescriptionView.detail sampleTop sampleTop.size initialDescriptionState.quantity :=
  (idEffect_resolves sampleProducts "2" initialDescriptionState).1 2 [sampleDress] [sampleCoat]
    sampleTop (by decide) rfl rfl (by decide)

/-! ## The recommendation engine -/

/-- C12. For every catalog item (whatever its price, so in particular for a
non-negative one), every creation time and every non-negative `λ`, the score
against the fresh zero-weight profile of `startSession` is 0: no category
weight, no tag weight, and a penalty that the clamp absorbs. -/
theorem score_emptyProfile (cfg : Config K) (hl : 0 ≤ cfg.lambda) (item : CatalogItem K)
    (now : K) : score cfg item (startSession now) = 0 := by
  have htags : ∀ tags : List String,
      (tags.map (weightOf (startSession now).tagWeight)).sum = 0 := by
    intro tags
    induction tags with
    | nil => rfl
    | cons t ts ih =>
      rw [List.map_cons, List.sum_cons, ih]
      simp [weightOf, startSession]
  have hcat : weightOf (startSession now).categoryWeight item.category = 0 := by
    simp [weightOf, startSession]
  have hpen : 0 ≤ priceDistancePenalty cfg item (startSession now) := by
    unfold priceDistancePenalty
    apply div_nonneg (mul_nonneg hl (abs_nonneg _))
    exact le_trans zero_le_one (le_max_right _ _)
  unfold score
  rw [hcat, htags]
  apply max_eq_left
  linarith

/-- Witness of `score_emptyProfile`: the sample item under the design
defaults. -/
theorem score_emptyProfile_witness :
    score (designDefaults (fun _ => (1 : ℚ))) sampleItem (startSession 0) = 0 :=
  score_emptyProfile (designDefaults (fun _ => (1 : ℚ))) (by norm_num [designDefaults])
    sampleItem 0

/-- C13. For every duration `d ≥ 0` the base weight of a `viewWithDuration`
event is `1 + min(d, 60) / 20`: it lies in `[1, 4]`, so the duration adds at
most 3 points, it is 4 for every `d ≥ 60`, and it does not decrease when the
duration grows. -/
theorem baseWeight_viewWithDuration (d : K) (hd : 0 ≤ d) :
    baseWeight (EventKind.viewWithDuration d) = 1 + min d 60 / 20 ∧
    1 ≤ baseWeight (EventKind.viewWithDuration d) ∧
    baseWeight (EventKind.viewWithDuration d) ≤ 4 ∧
    baseWeight (EventKind.viewWithDuration d) - 1 ≤ 3 ∧
    (60 ≤ d → baseWeight (EventKind.viewWithDuration d) = 4) ∧
    (∀ d', d ≤ d' →
      baseWeight (EventKind.viewWithDuration d) ≤ baseWeight (EventKind.viewWithDuration d')) := by
  have hmin0 : 0 ≤ min d 60 := le_min hd (by norm_num)
  have hmin60 : min d 60 ≤ 60 := min_le_right _ _
  have hw : baseWeight (EventKind.viewWithDuration d) = 1 + min d 60 / 20 := rfl
  refine ⟨hw, ?_, ?_, ?_, ?_, ?_⟩
  · rw [hw]; linarith
  · rw [hw]; linarith
  · rw [hw]; linarith
  · intro h60
    rw [hw, min_eq_right h60]
    norm_num
  · intro d' hdd'
    have hw' : baseWeight (EventKind.viewWithDuration d') = 1 + min d' 60 / 20 := rfl
    have hmono : min d 60 ≤ min d' 60 := min_le_min hdd' le_rfl
    rw [hw, hw']
    linarith

/-- Witness of `baseWeight_viewWithDuration`: a view of 30 seconds weighs 2.5
and a longer one weighs no less. -/
theorem baseWeight_viewWithDuration_witness :
    baseWeight (EventKind.viewWithDuration (30 : ℚ)) = 1 + min 30 60 / 20 ∧
    1 ≤ baseWeight (EventKind.viewWithDuration (30 : ℚ)) ∧
    baseWeight (EventKind.viewWithDuration (30 : ℚ)) ≤ 4 ∧
    baseWeight (EventKind.viewWithDuration (30 : ℚ)) - 1 ≤ 3 ∧
    ((60 : ℚ) ≤ 30 → baseWeight (EventKind.viewWithDuration (30 : ℚ)) = 4) ∧
    (∀ d', (30 : ℚ) ≤ d' →
      baseWeight (EventKind.viewWithDuration (30 : ℚ))
        ≤ baseWeight (EventKind.viewWithDuration d')) :=
  baseWeight_viewWithDuration 30 (by norm_num)

/-! ## Trending -/

theorem trending_two (w : K) (a b : Int) (sa sb : K) (h : sb < sa) :
    trending { itemScore := [(a, sa), (b, sb)], windowStart := w } 1 = [a] ∧
    trending { itemScore := [(b, sb), (a, sa)], windowStart := w } 1 = [a] := by
  constructor
  · simp [trending, List.insertionSort, List.orderedInsert, h]
  · simp [trending, List.insertionSort, List.orderedInsert, not_lt.2 (le_of_lt h), ne_of_lt h]

theorem decayFactor_bounds (cfg : Config K) (hpos : ∀ v, 0 < cfg.exp v)
    (hle : ∀ v, v ≤ 0 → cfg.exp v ≤ 1) (hhalf : 0 < cfg.halfLifeSeconds) (e : K) (he : 0 ≤ e) :
    0 < decayFactor cfg e ∧ decayFactor cfg e ≤ 1 := by
  refine ⟨hpos _, hle _ ?_⟩
  exact div_nonpos_of_nonpos_of_nonneg (neg_nonpos.2 he) (le_of_lt hhalf)

theorem decayFactor_zero (cfg : Config K) (hexp0 : cfg.exp 0 = 1) : decayFactor cfg 0 = 1 := by
  simp [decayFactor, hexp0]

theorem recordAll_interleaving (cfg : Config K) (x y : Int) (hxy : x ≠ y) (w t1 t2 t3 t4 : K) :
    (recordAll cfg (reset w) (List.zipWith addToCartAt (interleaving x y 0) [t1, t2, t3, t4]))
      = { itemScore :=
            [(y, 5 * decayFactor cfg (t2 - w) * decayFactor cfg (t3 - w) * decayFactor cfg (t4 - w)),
             (x, (5 * decayFactor cfg (t3 - w) + 5) * decayFactor cfg (t4 - w) + 5)]
          windowStart := w } ∧
    (recordAll cfg (reset w) (List.zipWith addToCartAt (interleaving x y 1) [t1, t2, t3, t4]))
      = { itemScore :=
            [(x, (5 * decayFactor cfg (t2 - w) * decayFactor cfg (t3 - w) + 5)
                  * decayFactor cfg (t4 - w) + 5),
             (y, 5 * decayFactor cfg (t3 - w) * decayFactor cfg (t4 - w))]
          windowStart := w } ∧
    (recordAll cfg (reset w) (List.zipWith addToCartAt (interleaving x y 2) [t1, t2, t3, t4]))
      = { itemScore :=
            [(x, (5 * decayFactor cfg (t2 - w) + 5) * decayFactor cfg (t3 - w)
                  * decayFactor cfg (t4 - w) + 5),
             (y, 5 * decayFactor cfg (t4 - w))]
          windowStart := w } ∧
    (recordAll cfg (reset w) (List.zipWith addToCartAt (interleaving x y 3) [t1, t2, t3, t4]))
      = { itemScore :=
            [(x, ((5 * decayFactor cfg (t2 - w) + 5) * decayFactor cfg (t3 - w) + 5)
                  * decayFactor cfg (t4 - w)),
             (y, 5)]
          windowStart := w } := by
  refine ⟨?_, ?_, ?_, ?_⟩ <;>
    simp [interleaving, recordAll, recordGlobal, reset, increment, addToCartAt, trendingWeight,
      hxy, Ne.symm hxy]

/-- C14, as stated, fails.  Over the reals, with the design defaults and the
real exponential: after a reset at time 0, three `addToCart` events on item 1
at time 0 and then one on item 2 at time 7200, the score of item 1 has decayed
to `15 * exp(-2)`, below the 5 of item 2, and `trending(1)` returns `[2]`. -/
theorem trending_after_long_pause :
    trending (recordAll (designDefaults Real.exp) (reset (0 : ℝ))
        (List.zipWith addToCartAt (interleaving 1 2 3) [0, 0, 0, 7200])) 1 = [2] ∧
    trending (recordAll (designDefaults Real.exp) (reset (0 : ℝ))
        (List.zipWith addToCartAt (interleaving 1 2 3) [0, 0, 0, 7200])) 1 ≠ [1] := by
  have hstate := (recordAll_interleaving (designDefaults Real.exp) 1 2 (by decide)
    (0 : ℝ) 0 0 0 7200).2.2.2
  have h0 : decayFactor (designDefaults Real.exp) ((0 : ℝ) - 0) = 1 := by
    simp [decayFactor, designDefaults]
  have h2 : decayFactor (designDefaults Real.exp) ((7200 : ℝ) - 0) = Real.exp (-2) := by
    unfold decayFactor designDefaults
    norm_num
  have h3 : (3 : ℝ) < Real.exp 2 := by
    have := Real.add_one_lt_exp (two_ne_zero : (2 : ℝ) ≠ 0)
    linarith
  have hlt : ((5 * (1 : ℝ) + 5) * 1 + 5) * Real.exp (-2) < 5 := by
    rw [Real.exp_neg]
    have hpos : (0 : ℝ) < Real.exp 2 := Real.exp_pos 2
    have : (Real.exp 2)⁻¹ < 3⁻¹ := (inv_lt_inv₀ hpos (by norm_num)).2 h3
    linarith
  rw [hstate, h0, h2]
  have htop := (trending_two (0 : ℝ) 2 1 5 (((5 * (1 : ℝ) + 5) * 1 + 5) * Real.exp (-2)) hlt).2
  rw [htop]
  exact ⟨rfl, by decide⟩

theorem trending_two_iff (w : K) (a b : Int) (hab : a ≠ b) (sa sb : K) :
    trending { itemScore := [(a, sa), (b, sb)], windowStart := w } 1 = [a] ↔
      sb < sa ∨ (sa = sb ∧ a < b) := by
  have hlt : a ≤ b ↔ a < b := ⟨fun h => lt_of_le_of_ne h hab, le_of_lt⟩
  by_cases h : sb < sa ∨ (sa = sb ∧ a ≤ b)
  · have hr : sb < sa ∨ (sa = sb ∧ a < b) := by
      rcases h with h | ⟨h, h'⟩
      · exact Or.inl h
      · exact Or.inr ⟨h, hlt.1 h'⟩
    simp [trending, List.insertionSort, List.orderedInsert, h, hr]
  · have hr : ¬ (sb < sa ∨ (sa = sb ∧ a < b)) := by
      rintro (h' | ⟨h', h''⟩)
      · exact h (Or.inl h')
      · exact h (Or.inr ⟨h', le_of_lt h''⟩)
    simp [trending, List.insertionSort, List.orderedInsert, h, hr, Ne.symm hab]

/-- C14, amended.  After a reset at time `w`, three `addToCart` events on `x`
and one on another item `y` are recorded in any order, at non-decreasing times
from `w` on.  Then `trending(1)` returns `[x]` exactly when the event on `y` is
not the last of the four, or it is the last and the decayed score of `x`,
`((5 * d2 + 5) * d3 + 5) * d4` with `d` the decay factor at the time of the
second, third and fourth event, is above the 5 of `y`, or equals it with the id
of `x` below that of `y`.  The decay is any function that is positive and at
most 1 on non-positive arguments, as the exponential is. -/
theorem trending_three_against_one (cfg : Config K)
    (hpos : ∀ v, 0 < cfg.exp v) (hle : ∀ v, v ≤ 0 → cfg.exp v ≤ 1)
    (hhalf : 0 < cfg.halfLifeSeconds) (x y : Int) (hxy : x ≠ y) (k : Nat) (hk : k ≤ 3)
    (w t1 t2 t3 t4 : K) (h1 : w ≤ t1) (h2 : t1 ≤ t2) (h3 : t2 ≤ t3) (h4 : t3 ≤ t4) :
    trending (recordAll cfg (reset w)
        (List.zipWith addToCartAt (interleaving x y k) [t1, t2, t3, t4])) 1 = [x] ↔
      (k < 3 ∨
        5 < ((5 * decayFactor cfg (t2 - w) + 5) * decayFactor cfg (t3 - w) + 5)
              * decayFactor cfg (t4 - w) ∨
        (((5 * decayFactor cfg (t2 - w) + 5) * decayFactor cfg (t3 - w) + 5)
              * decayFactor cfg (t4 - w) = 5 ∧ x < y)) := by
  have hb2 := decayFactor_bounds cfg hpos hle hhalf (t2 - w) (by linarith)
  have hb3 := decayFactor_bounds cfg hpos hle hhalf (t3 - w) (by linarith)
  have hb4 := decayFactor_bounds cfg hpos hle hhalf (t4 - w) (by linarith)
  have hstate := recordAll_interleaving cfg x y hxy w t1 t2 t3 t4
  generalize decayFactor cfg (t2 - w) = d2 at hb2 hstate
  generalize decayFactor cfg (t3 - w) = d3 at hb3 hstate
  generalize decayFactor cfg (t4 - w) = d4 at hb4 hstate
  have h34 : 0 < d3 * d4 := mul_pos hb3.1 hb4.1
  have h34' : d3 * d4 ≤ 1 := by
    calc d3 * d4 ≤ 1 * 1 := mul_le_mul hb3.2 hb4.2 (le_of_lt hb4.1) zero_le_one
      _ = 1 := one_mul 1
  have h234 : 0 < d2 * d3 * d4 := mul_pos (mul_pos hb2.1 hb3.1) hb4.1
  have h234' : d2 * d3 * d4 ≤ d3 * d4 := by
    calc d2 * d3 * d4 = d2 * (d3 * d4) := mul_assoc _ _ _
      _ ≤ 1 * (d3 * d4) := mul_le_mul_of_nonneg_right hb2.2 (le_of_lt h34)
      _ = d3 * d4 := one_mul _
  have hcases : k = 0 ∨ k = 1 ∨ k = 2 ∨ k = 3 := by omega
  rcases hcases with rfl | rfl | rfl | rfl
  · refine iff_of_true ?_ (Or.inl (by decide))
    rw [hstate.1]
    refine (trending_two w x y _ _ ?_).2
    have e : (5 * d3 + 5) * d4 + 5 = 5 * (d3 * d4) + 5 * d4 + 5 := by ring
    have e' : 5 * d2 * d3 * d4 = 5 * (d2 * d3 * d4) := by ring
    rw [e, e']
    linarith [hb4.1]
  · refine iff_of_true ?_ (Or.inl (by decide))
    rw [hstate.2.1]
    refine (trending_two w x y _ _ ?_).1
    have e : (5 * d2 * d3 + 5) * d4 + 5 = 5 * (d2 * d3 * d4) + 5 * d4 + 5 := by ring
    have e' : 5 * d3 * d4 = 5 * (d3 * d4) := by ring
    rw [e, e']
    linarith [hb4.1]
  · refine iff_of_true ?_ (Or.inl (by decide))
    rw [hstate.2.2.1]
    refine (trending_two w x y _ _ ?_).1
    have e : (5 * d2 + 5) * d3 * d4 + 5 = 5 * (d2 * d3 * d4) + 5 * (d3 * d4) + 5 := by ring
    rw [e]
    linarith [hb4.2]
  · rw [hstate.2.2.2, trending_two_iff w x y hxy]
    constructor
    · intro h
      exact Or.inr h
    · rintro (h | h)
      · omega
      · exact h

theorem decayed_lead_after_1800 :
    (5 : ℝ) < ((5 * decayFactor (designDefaults Real.exp) ((0 : ℝ) - 0) + 5)
        * decayFactor (designDefaults Real.exp) ((0 : ℝ) - 0) + 5)
        * decayFactor (designDefaults Real.exp) ((1800 : ℝ) - 0) := by
  have h0 : decayFactor (designDefaults Real.exp) ((0 : ℝ) - 0) = 1 := by
    simp [decayFactor, designDefaults]
  have h2 : decayFactor (designDefaults Real.exp) ((1800 : ℝ) - 0) = Real.exp (-(1 / 2)) := by
    unfold decayFactor designDefaults
    norm_num
  have h3 : Real.exp (1 / 2) < 3 := by
    have hmono : Real.exp (1 / 2) ≤ Real.exp 1 := Real.exp_le_exp.2 (by norm_num)
    have := Real.exp_one_lt_d9
    linarith
  have hpos : (0 : ℝ) < Real.exp (1 / 2) := Real.exp_pos _
  have hinv : (3 : ℝ)⁻¹ < (Real.exp (1 / 2))⁻¹ := (inv_lt_inv₀ (by norm_num) hpos).2 h3
  rw [h0, h2, Real.exp_neg]
  linarith

/-- Witness of `trending_three_against_one`: over the reals with the design
defaults, item 1 is added to the cart three times at time 0 and item 2 last, at
time 1800; the score of item 1 has decayed to `15 * exp(-1/2)`, still above 5,
and item 1 leads. -/
theorem trending_three_against_one_witness :
    trending (recordAll (designDefaults Real.exp) (reset (0 : ℝ))
      (List.zipWith addToCartAt (interleaving 1 2 3) [0, 0, 0, 1800])) 1 = [1] :=
  (trending_three_against_one (designDefaults Real.exp) Real.exp_pos
    (fun _ hv => Real.exp_le_one_iff.2 hv) (by norm_num [designDefaults]) 1 2 (by decide) 3
    (by decide) 0 0 0 0 1800 le_rfl le_rfl le_rfl (by norm_num)).2
    (Or.inr (Or.inl decayed_lead_after_1800))

/-! ## The Apply Filters button -/

theorem hexValue_hexDigit (n : Nat) (hn : n < 16) :
    (if (hexDigit n).toNat < 58 then (hexDigit n).toNat - 48 else (hexDigit n).toNat - 87) = n := by
  interval_cases n <;> rfl

theorem unquote_quoteJSONChar (c : Char) (r : List Char) :
    unquoteJSONChar (quoteJSONChar c ++ r) = some (c, r) := by
  have hc : Char.ofNat c.toNat = c := Char.ofNat_toNat c
  unfold quoteJSONChar
  split_ifs with h1 h2 h3 h4 h5 h6 h7 h8
  · rw [← hc, h1]; rfl
  · rw [← hc, h2]; rfl
  · rw [← hc, h3]; rfl
  · rw [← hc, h4]; rfl
  · rw [← hc, h5]; rfl
  · rw [← hc, h6]; rfl
  · rw [← hc, h7]; rfl
  · have e1 := hexValue_hexDigit (c.toNat / 16) (by omega)
    have e2 := hexValue_hexDigit (c.toNat % 16) (Nat.mod_lt _ (by norm_num))
    show some (Char.ofNat
        (16 * (if (hexDigit (c.toNat / 16)).toNat < 58 then (hexDigit (c.toNat / 16)).toNat - 48
                else (hexDigit (c.toNat / 16)).toNat - 87)
          + (if (hexDigit (c.toNat % 16)).toNat < 58 then (hexDigit (c.toNat % 16)).toNat - 48
                else (hexDigit (c.toNat % 16)).toNat - 87)), r) = some (c, r)
    rw [e1, e2, Nat.div_add_mod, hc]
  · simp [unquoteJSONChar, h6, h7]

theorem unquote_quote_mark (r : List Char) : unquoteJSONChar (Char.ofNat 34 :: r) = none := rfl

theorem quoteJSONChars_inj :
    ∀ (a b r r' : List Char),
      quoteJSONChars a ++ Char.ofNat 34 :: r = quoteJSONChars b ++ Char.ofNat 34 :: r' →
      a = b ∧ r = r'
  | [], [], r, r', h => by
    simp only [quoteJSONChars, List.nil_append, List.cons.injEq, true_and] at h
    exact ⟨rfl, h⟩
  | [], d :: b, r, r', h => by
    simp only [quoteJSONChars, List.nil_append, List.append_assoc] at h
    have := congrArg unquoteJSONChar h
    rw [unquote_quote_mark, unquote_quoteJSONChar] at this
    cases this
  | c :: a, [], r, r', h => by
    simp only [quoteJSONChars, List.nil_append, List.append_assoc] at h
    have := congrArg unquoteJSONChar h
    rw [unquote_quote_mark, unquote_quoteJSONChar] at this
    cases this
  | c :: a, d :: b, r, r', h => by
    simp only [quoteJSONChars, List.append_assoc] at h
    have := congrArg unquoteJSONChar h
    rw [unquote_quoteJSONChar, unquote_quoteJSONChar] at this
    simp only [Option.some.injEq, Prod.mk.injEq] at this
    obtain ⟨hcd, hrest⟩ := this
    obtain ⟨hab, hr⟩ := quoteJSONChars_inj a b r r' hrest
    exact ⟨by rw [hcd, hab], hr⟩

theorem quoteJSONString_inj (a b : String) (r r' : List Char)
    (h : quoteJSONString a ++ r = quoteJSONString b ++ r') : a = b ∧ r = r' := by
  unfold quoteJSONString at h
  simp only [List.cons_append, List.append_assoc, List.singleton_append, List.cons.injEq,
    true_and] at h
  obtain ⟨hab, hr⟩ := quoteJSONChars_inj a.data b.data r r' h
  exact ⟨String.ext hab, hr⟩

theorem member_inj (k a a' : String) (r r' : List Char)
    (h : quoteJSONString k ++ ':' :: (quoteJSONString a ++ r)
       = quoteJSONString k ++ ':' :: (quoteJSONString a' ++ r')) : a = a' ∧ r = r' := by
  have h1 := List.append_cancel_left h
  simp only [List.cons.injEq, true_and] at h1
  exact quoteJSONString_inj a a' r r' h1

theorem stringify_four_inj (k1 k2 k3 k4 a b c d a' b' c' d' : String)
    (h : JSON.stringify [(k1, a), (k2, b), (k3, c), (k4, d)]
       = JSON.stringify [(k1, a'), (k2, b'), (k3, c'), (k4, d')]) :
    a = a' ∧ b = b' ∧ c = c' ∧ d = d' := by
  have h := congrArg String.data h
  simp only [JSON.stringify, List.cons.injEq, true_and, stringifyMembers, List.append_assoc,
    List.cons_append] at h
  obtain ⟨ha, h⟩ := member_inj k1 a a' _ _ h
  simp only [List.cons.injEq, true_and] at h
  obtain ⟨hb, h⟩ := member_inj k2 b b' _ _ h
  simp only [List.cons.injEq, true_and] at h
  obtain ⟨hc, h⟩ := member_inj k3 c c' _ _ h
  simp only [List.cons.injEq, true_and] at h
  obtain ⟨hd, _⟩ := member_inj k4 d d' _ _ h
  exact ⟨ha, hb, hc, hd⟩

theorem spreadSet_keys (key value : String) :
    ∀ f : JsObject, key ∈ f.map Prod.fst →
      (spreadSet f key value).map Prod.fst = f.map Prod.fst
  | [], h => by simp at h
  | entry :: rest, h => by
    unfold spreadSet
    by_cases he : entry.1 = key
    · rw [if_pos he]
      rfl
    · rw [if_neg he]
      have hrest : key ∈ rest.map Prod.fst := by
        rw [List.map_cons, List.mem_cons] at h
        rcases h with h | h
        · exact absurd h.symm he
        · exact h
      rw [List.map_cons, List.map_cons, spreadSet_keys key value rest hrest]

theorem reachable_keys (s : PanelState) (h : Reachable s) :
    s.filters.map Prod.fst = filterKeys ∧ s.pendingFilters.map Prod.fst = filterKeys := by
  induction h with
  | initial => exact ⟨rfl, rfl⟩
  | select key value s hk _ ih =>
    refine ⟨ih.1, ?_⟩
    show (spreadSet s.pendingFilters key value).map Prod.fst = filterKeys
    rw [spreadSet_keys key value s.pendingFilters (by rw [ih.2]; exact hk), ih.2]
  | search value s _ ih => exact ih
  | clear s _ _ => exact ⟨rfl, rfl⟩
  | apply s _ ih => exact ⟨ih.2, ih.2⟩

theorem keys_shape (o : JsObject) (h : o.map Prod.fst = filterKeys) :
    ∃ a b c d, o = [("priceRange", a), ("size", b), ("category", c), ("sortBy", d)] := by
  rcases o with _ | ⟨⟨k1, a⟩, _ | ⟨⟨k2, b⟩, _ | ⟨⟨k3, c⟩, _ | ⟨⟨k4, d⟩, _ | ⟨e, rest⟩⟩⟩⟩⟩ <;>
    simp [filterKeys] at h
  obtain ⟨rfl, rfl, rfl, rfl⟩ := h
  exact ⟨a, b, c, d, rfl⟩

theorem field_of_shape (a b c d : String) :
    field [("priceRange", a), ("size", b), ("category", c), ("sortBy", d)] "priceRange" = some a ∧
    field [("priceRange", a), ("size", b), ("category", c), ("sortBy", d)] "size" = some b ∧
    field [("priceRange", a), ("size", b), ("category", c), ("sortBy", d)] "category" = some c ∧
    field [("priceRange", a), ("size", b), ("category", c), ("sortBy", d)] "sortBy" = some d :=
  ⟨rfl, rfl, rfl, rfl⟩

/-- C15. In every state reached through the selects, the search input, Clear
All and Apply Filters, both filter objects have the keys `priceRange`, `size`,
`category`, `sortBy` in this order, and the Apply Filters button is disabled
exactly when the two objects agree on each of the four fields and the two
search queries are equal; right after a click on Apply Filters the button is
disabled. -/
theorem applyDisabled_iff_fieldwise (s : PanelState) (h : Reachable s) :
    s.filters.map Prod.fst = filterKeys ∧
    s.pendingFilters.map Prod.fst = filterKeys ∧
    (applyDisabled s = true ↔
      (field s.pendingFilters "priceRange" = field s.filters "priceRange" ∧
       field s.pendingFilters "size" = field s.filters "size" ∧
       field s.pendingFilters "category" = field s.filters "category" ∧
       field s.pendingFilters "sortBy" = field s.filters "sortBy") ∧
      s.pendingSearchQuery = s.searchQuery) ∧
    applyDisabled (applyOnClick s) = true := by
  obtain ⟨hf, hp⟩ := reachable_keys s h
  refine ⟨hf, hp, ?_, ?_⟩
  · obtain ⟨a, b, c, d, ef⟩ := keys_shape s.filters hf
    obtain ⟨a', b', c', d', ep⟩ := keys_shape s.pendingFilters hp
    have hfa := field_of_shape a b c d
    have hfp := field_of_shape a' b' c' d'
    unfold applyDisabled
    rw [ef, ep, hfa.1, hfa.2.1, hfa.2.2.1, hfa.2.2.2, hfp.1, hfp.2.1, hfp.2.2.1, hfp.2.2.2]
    simp only [Bool.and_eq_true, beq_iff_eq, Option.some.injEq]
    constructor
    · rintro ⟨hjson, hq⟩
      obtain ⟨h1, h2, h3, h4⟩ := stringify_four_inj _ _ _ _ a b c d a' b' c' d' hjson
      exact ⟨⟨h1.symm, h2.symm, h3.symm, h4.symm⟩, hq.symm⟩
    · rintro ⟨⟨h1, h2, h3, h4⟩, hq⟩
      rw [h1, h2, h3, h4]
      exact ⟨rfl, hq.symm⟩
  · simp [applyDisabled, applyOnClick]

/-- Witness of `applyDisabled_iff_fieldwise`: after Medium is chosen in the Size
select the button is enabled, the two objects differing on `size`. -/
theorem applyDisabled_iff_fieldwise_witness :
    (selectOnChange "size" "M" initialPanel).filters.map Prod.fst = filterKeys ∧
    (selectOnChange "size" "M" initialPanel).pendingFilters.map Prod.fst = filterKeys ∧
    (applyDisabled (selectOnChange "size" "M" initialPanel) = true ↔
      (field (selectOnChange "size" "M" initialPanel).pendingFilters "priceRange"
          = field (selectOnChange "size" "M" initialPanel).filters "priceRange" ∧
       field (selectOnChange "size" "M" initialPanel).pendingFilters "size"
          = field (selectOnChange "size" "M" initialPanel).filters "size" ∧
       field (selectOnChange "size" "M" initialPanel).pendingFilters "category"
          = field (selectOnChange "size" "M" initialPanel).filters "category" ∧
       field (selectOnChange "size" "M" initialPanel).pendingFilters "sortBy"
          = field (selectOnChange "size" "M" initialPanel).filters "sortBy") ∧
      (selectOnChange "size" "M" initialPanel).pendingSearchQuery
        = (selectOnChange "size" "M" initialPanel).searchQuery) ∧
    applyDisabled (applyOnClick (selectOnChange "size" "M" initialPanel)) = true :=
  applyDisabled_iff_fieldwise (selectOnChange "size" "M" initialPanel)
    (Reachable.select "size" "M" initialPanel (by decide) Reachable.initial)

end Shop
